import Mathlib

/-!
Shallow embedding of the FinOps-AI-Copilot core (KPI engine, ingestion
quality checks, RAG initialization and chat endpoint) and proofs of the
specification claims.  Money and scores are modelled as rationals, invoice
months as naturals ordered like the underlying first-of-month dates.
-/

namespace FinOps

/-- Billing table row (models.BillingRecord).  The invoice month is encoded
as a natural number carrying the date order. -/
structure BillingRecord where
  invoice_month : Nat
  account_id : String
  subscription : String
  service : String
  resource_group : String
  resource_id : String
  region : String
  usage_qty : ℚ
  unit_cost : ℚ
  cost : ℚ
  optimization_score : ℚ
  deriving DecidableEq, Repr

/-- Descending order on months, used by order_by(invoice_month.desc()). -/
def monthGe (a b : Nat) : Prop := b ≤ a

instance : DecidableRel monthGe := fun a b => (inferInstance : Decidable (b ≤ a))

instance : IsTotal Nat monthGe := ⟨fun a b => le_total b a⟩

instance : IsTrans Nat monthGe := ⟨fun _ _ _ h1 h2 => le_trans h2 h1⟩

/-- Ascending order on months, used by order_by(invoice_month). -/
def monthLe (a b : Nat) : Prop := a ≤ b

instance : DecidableRel monthLe := fun a b => (inferInstance : Decidable (a ≤ b))

/-- Ascending order on (month, total) pairs, used by the Python
spend_history.sort(key=lambda x: x[month]). -/
def pairLe (a b : Nat × ℚ) : Prop := a.1 ≤ b.1

instance : DecidableRel pairLe := fun a b => (inferInstance : Decidable (a.1 ≤ b.1))

/-- Descending order on (service, summed cost) pairs, used by
order_by(func.sum(cost).desc()). -/
def costGe (a b : String × ℚ) : Prop := b.2 ≤ a.2

instance : DecidableRel costGe := fun a b => (inferInstance : Decidable (b.2 ≤ a.2))

instance : IsTotal (String × ℚ) costGe := ⟨fun a b => le_total b.2 a.2⟩

instance : IsTrans (String × ℚ) costGe := ⟨fun _ _ _ h1 h2 => le_trans h2 h1⟩

/-- SQL SELECT DISTINCT: the distinct values of a column, first occurrence
order. -/
def dedupFirstSeen {α : Type} [DecidableEq α] (l : List α) : List α :=
  l.foldl (fun acc s => if s ∈ acc then acc else acc ++ [s]) []

/-- SQL SUM aggregate: NULL (none) over an empty row set, otherwise the sum
of the values. -/
def sqlSum (l : List ℚ) : Option ℚ :=
  if l.isEmpty then none else some l.sum

/-- The distinct invoice months present in the billing table. -/
def distinctMonths (ds : List BillingRecord) : List Nat :=
  dedupFirstSeen (ds.map (fun r => r.invoice_month))

/-- Total cost of the rows of one invoice month (the grouped SUM(cost)). -/
def monthTotal (ds : List BillingRecord) (m : Nat) : ℚ :=
  ((ds.filter (fun r => r.invoice_month = m)).map (fun r => r.cost)).sum

/-- kpi.get_last_n_months_spend.  func.max over invoice_month is NULL exactly
when the table is empty (invoice months are dates, never falsy, so the
Python truthiness test is a None check); then the distinct months are read
in descending order, the first n are kept, and the per-month cost sums are
returned ordered by month ascending. -/
def get_last_n_months_spend (ds : List BillingRecord) (n : Nat) : List (Nat × ℚ) :=
  match ds with
  | [] => []
  | _ :: _ =>
    let recent_months := (List.insertionSort monthGe (distinctMonths ds)).take n
    if recent_months.isEmpty then []
    else (List.insertionSort monthLe recent_months).map (fun m => (m, monthTotal ds m))

/-- The Python spend_history.sort(key=lambda x: x[month]). -/
def sortPairsByMonth (l : List (Nat × ℚ)) : List (Nat × ℚ) :=
  List.insertionSort pairLe l

/-- Top-5 cost drivers query (kpi.py lines 90-99): restrict to the rows of
the given month, group by service, sum cost per service, order by the summed
cost descending, limit 5. -/
def top5CostDrivers (ds : List BillingRecord) (m : Nat) : List (String × ℚ) :=
  let latest := ds.filter (fun r => r.invoice_month = m)
  let grouped := (dedupFirstSeen (latest.map (fun r => r.service))).map
    (fun s => (s, ((latest.filter (fun r => r.service = s)).map (fun r => r.cost)).sum))
  (List.insertionSort costGe grouped).take 5

/-- Python round() to an integer: round half to even, modelled exactly on ℚ. -/
def roundHalfEven (q : ℚ) : ℤ :=
  if q - ⌊q⌋ < 1 / 2 then ⌊q⌋
  else if 1 / 2 < q - ⌊q⌋ then ⌊q⌋ + 1
  else if 2 ∣ ⌊q⌋ then ⌊q⌋ else ⌊q⌋ + 1

/-- Python round(x, 2). -/
def round2 (q : ℚ) : ℚ := (roundHalfEven (q * 100) : ℚ) / 100

/-- models.KPIResponse; the top-5 drivers list holds (service, cost) pairs. -/
structure KPIResponse where
  status : String := "success"
  total_monthly_spend : ℚ
  savings_opportunities : ℚ
  waste_metrics : ℚ
  monthly_trend_percentage : ℚ
  top_5_cost_drivers : List (String × ℚ)
  deriving DecidableEq, Repr

/-- A fastapi.HTTPException surfaced to the client. -/
structure HTTPError where
  status_code : Nat
  detail : String
  deriving DecidableEq, Repr

/-- The body of kpi.get_kpi_metrics from the point where spend_history has
been computed and sorted (kpi.py lines 58-110).  Raising an HTTPException is
modelled as returning an error value. -/
def kpi_from_history (ds : List BillingRecord) (spend_history : List (Nat × ℚ)) :
    Except HTTPError KPIResponse :=
  match spend_history with
  | [] => .error ⟨404, "No billing data found."⟩
  | first :: rest =>
    let current_month_data := rest.getLastD first
    let current_month_spend := current_month_data.2
    let previous_month_spend :=
      if 1 < (first :: rest).length then first.2 else current_month_spend
    let monthly_trend_percentage : ℚ :=
      if previous_month_spend = 0 then 0
      else ((current_month_spend - previous_month_spend) / previous_month_spend) * 100
    let savings_opportunities :=
      (sqlSum (ds.map (fun r => r.cost * r.optimization_score))).getD 0
    let waste_metrics :=
      (sqlSum ((ds.filter (fun r =>
        r.optimization_score < 3 / 10 && r.invoice_month = current_month_data.1)).map
          (fun r => r.cost))).getD 0
    .ok
      { total_monthly_spend := round2 current_month_spend
        savings_opportunities := round2 savings_opportunities
        waste_metrics := round2 waste_metrics
        monthly_trend_percentage := round2 monthly_trend_percentage
        top_5_cost_drivers :=
          (top5CostDrivers ds current_month_data.1).map (fun p => (p.1, round2 p.2)) }

/-- The try-block of kpi.get_kpi_metrics: compute spend_history, sort it by
month, 404 on empty, otherwise assemble the KPI response. -/
def get_kpi_metrics_body (ds : List BillingRecord) : Except HTTPError KPIResponse :=
  kpi_from_history ds (sortPairsByMonth (get_last_n_months_spend ds 2))

/-- GET /api/kpi (kpi.get_kpi_metrics).  The blanket except Exception at
kpi.py line 112 also catches the HTTPException(404) raised at line 59,
because fastapi.HTTPException is an Exception subclass, and replaces any
error with a 500. -/
def get_kpi_metrics (ds : List BillingRecord) : Except HTTPError KPIResponse :=
  match get_kpi_metrics_body ds with
  | .ok r => .ok r
  | .error _ => .error ⟨500, "Internal server error while fetching KPIs."⟩

/-- m is the latest invoice month present in the billing data
(spec section 4.1 step 1). -/
def IsLatestMonth (ds : List BillingRecord) (m : Nat) : Prop :=
  (∃ r ∈ ds, r.invoice_month = m) ∧ ∀ r ∈ ds, r.invoice_month ≤ m

/-- m2 is the second-latest distinct invoice month, the largest month
strictly below the latest month m. -/
def IsSecondLatestMonth (ds : List BillingRecord) (m m2 : Nat) : Prop :=
  (∃ r ∈ ds, r.invoice_month = m2) ∧ m2 < m ∧
    ∀ r ∈ ds, r.invoice_month = m ∨ r.invoice_month ≤ m2

/-! ### Ingestion quality checks (ingestion.perform_quality_checks) -/

/-- A raw DataFrame row before quality checks.  resource_id and cost may be
null; owner is nullable in the generated data. -/
structure RawRow where
  invoice_month : Nat
  account_id : String
  subscription : String
  service : String
  resource_group : String
  resource_id : Option String
  region : String
  usage_qty : ℚ
  unit_cost : ℚ
  cost : Option ℚ
  owner : Option String
  env : String
  tags_json : String
  optimization_score : ℚ
  deriving DecidableEq, Repr

/-- The pandas clip(lower=0) applied to the cost column of one row. -/
def clipCost (r : RawRow) : RawRow :=
  { r with cost := r.cost.map (fun c => max c 0) }

/-- ingestion.perform_quality_checks: dropna on resource_id and cost, then,
if any remaining cost is negative, clip the cost column at 0. -/
def perform_quality_checks (df : List RawRow) : List RawRow :=
  let df1 := df.filter (fun r => r.resource_id.isSome && r.cost.isSome)
  if df1.any (fun r => r.cost.getD 0 < 0) then df1.map clipCost else df1

/-! ### RAG engine (rag_core.get_rag_chain) and chat endpoint -/

/-- A retrieved chunk: page content plus the optional source metadata label. -/
structure Doc where
  page_content : String
  source : Option String
  deriving DecidableEq, Repr

/-- The value produced by rag_chain.invoke: the generated answer and the
retrieved context documents, in retrieval order. -/
structure QueryResult where
  answer : String
  context : List Doc
  deriving DecidableEq, Repr

/-- An assembled retrieval pipeline: a question either yields a query result
or raises an exception carried as a message. -/
def RagChain : Type := String → Except String QueryResult

/-- The module-level mutable globals of rag_core. -/
structure RagState where
  RAG_CHAIN : Option RagChain
  RAG_ERROR : Option String

/-- What the try-block of an initialization attempt (embeddings, Chroma,
Ollama, chain assembly, rag_core.py lines 88-134) would do on one call,
determined by the external environment at that moment. -/
inductive InitOutcome where
  | success : RagChain → InitOutcome
  | failure : String → InitOutcome

/-- The configuration error stored when OLLAMA_BASE_URL is absent or does
not point at host.docker.internal (rag_core.py line 85). -/
def configError : String :=
  "OLLAMA_BASE_URL is missing or incorrect. Must be http://host.docker.internal:11434 in .env."

/-- The cached message for an exception e raised during initialization
(rag_core.py line 138). -/
def initFailMsg (e : String) : String :=
  "RAG Initialization Failed: " ++ e

/-- rag_core.get_rag_chain.  cfgOk models the OLLAMA_BASE_URL check;
attempt models the try-block outcome for this call.  The fast path fires
only when a chain is cached, and it returns the cached chain together with
whatever RAG_ERROR holds; RAG_ERROR is never cleared. -/
def get_rag_chain (cfgOk : Bool) (attempt : InitOutcome) (s : RagState) :
    (Option RagChain × Option String) × RagState :=
  match s.RAG_CHAIN with
  | some c => ((some c, s.RAG_ERROR), s)
  | none =>
    if !cfgOk then
      ((none, some configError), { s with RAG_ERROR := some configError })
    else
      match attempt with
      | .success c => ((some c, none), { s with RAG_CHAIN := some c })
      | .failure e =>
          ((none, some (initFailMsg e)), { s with RAG_ERROR := some (initFailMsg e) })

/-- chat.ChatResponse. -/
structure ChatResponse where
  answer : String
  sources : String
  status : String := "success"
  deriving DecidableEq, Repr

/-- The degraded answer returned when the RAG system is offline
(chat.py line 33). -/
def offlineAnswer (err : String) : String :=
  "AI System is temporarily offline. Reason: " ++ err ++
    ". Please ensure Ollama is running and the 'mistral' model is pulled."

/-- Source formatting (chat.py lines 44-46): the source label of each
retrieved document in order, Unknown Source when the metadata lacks one,
joined with commas and never deduplicated. -/
def formatSources (context : List Doc) : String :=
  String.intercalate ", " (context.map (fun d => d.source.getD "Unknown Source"))

/-- The HTTP 500 detail raised when invoking the chain throws
(chat.py lines 58-61); the carried message stands for the formatted
exception text. -/
def ragChainError (e : String) : String :=
  "Internal RAG Chain Error. Please check Ollama server logs. Error: " ++ e

/-- The body of chat.ask_ai_copilot given the pair returned by
get_rag_chain.  A missing chain with no error would fail inside the
try-block (invoking None) and so also surfaces as the 500. -/
def ask_logic (rag_chain : Option RagChain) (rag_error : Option String)
    (question : String) : Except HTTPError ChatResponse :=
  match rag_error with
  | some err => .ok { answer := offlineAnswer err, sources := "N/A", status := "error" }
  | none =>
    match rag_chain with
    | none => .error ⟨500, ragChainError "AttributeError"⟩
    | some chain =>
      match chain question with
      | .ok resp =>
          .ok { answer := resp.answer, sources := formatSources resp.context
                status := "success" }
      | .error e => .error ⟨500, ragChainError e⟩

/-- POST /api/ask (chat.ask_ai_copilot): initialize or fetch the RAG chain,
then answer; returns the response (or raised HTTPException) together with
the module state after the call. -/
def ask_ai_copilot (cfgOk : Bool) (attempt : InitOutcome) (question : String)
    (s : RagState) : Except HTTPError ChatResponse × RagState :=
  let step := get_rag_chain cfgOk attempt s
  (ask_logic step.1.1 step.1.2 question, step.2)

/-! ### Helper lemmas -/

theorem mem_foldl_dedup {α : Type} [DecidableEq α] (l : List α) :
    ∀ (acc : List α) (x : α),
      x ∈ l.foldl (fun acc s => if s ∈ acc then acc else acc ++ [s]) acc ↔
        x ∈ acc ∨ x ∈ l := by
  induction l with
  | nil => intro acc x; simp
  | cons a t ih =>
    intro acc x
    rw [List.foldl_cons, ih]
    by_cases h : a ∈ acc
    · simp only [if_pos h, List.mem_cons]
      constructor
      · rintro (h1 | h1) <;> tauto
      · rintro (h1 | h1 | h1)
        · tauto
        · exact Or.inl (h1 ▸ h)
        · tauto
    · simp only [if_neg h, List.mem_append, List.mem_singleton, List.mem_cons]
      tauto

theorem mem_dedupFirstSeen {α : Type} [DecidableEq α] (l : List α) (x : α) :
    x ∈ dedupFirstSeen l ↔ x ∈ l := by
  rw [dedupFirstSeen, mem_foldl_dedup]
  simp

theorem nodup_foldl_dedup {α : Type} [DecidableEq α] (l : List α) :
    ∀ acc : List α, acc.Nodup →
      (l.foldl (fun acc s => if s ∈ acc then acc else acc ++ [s]) acc).Nodup := by
  induction l with
  | nil => intro acc hacc; simpa using hacc
  | cons a t ih =>
    intro acc hacc
    rw [List.foldl_cons]
    by_cases h : a ∈ acc
    · rw [if_pos h]; exact ih acc hacc
    · rw [if_neg h]
      refine ih _ ?_
      simp [List.nodup_append, hacc, h]

theorem nodup_dedupFirstSeen {α : Type} [DecidableEq α] (l : List α) :
    (dedupFirstSeen l).Nodup :=
  nodup_foldl_dedup l [] List.nodup_nil

theorem sqlSum_getD (l : List ℚ) : (sqlSum l).getD 0 = l.sum := by
  cases l <;> simp [sqlSum]

theorem sqlSum_eq_none (l : List ℚ) : sqlSum l = none ↔ l = [] := by
  cases l <;> simp [sqlSum]

theorem mem_distinctMonths (ds : List BillingRecord) (x : Nat) :
    x ∈ distinctMonths ds ↔ ∃ r ∈ ds, r.invoice_month = x := by
  rw [distinctMonths, mem_dedupFirstSeen, List.mem_map]

/-- Structure of the sorted spend history: for a non-empty table it is
either a single pair for the unique invoice month, or the pair for the
second-latest month followed by the pair for the latest month. -/
theorem spend_history_cases (ds : List BillingRecord) (h : ds ≠ []) :
    (∃ m, IsLatestMonth ds m ∧ (∀ r ∈ ds, r.invoice_month = m) ∧
      sortPairsByMonth (get_last_n_months_spend ds 2) = [(m, monthTotal ds m)])
    ∨ (∃ m m2, IsLatestMonth ds m ∧ IsSecondLatestMonth ds m m2 ∧
      sortPairsByMonth (get_last_n_months_spend ds 2) =
        [(m2, monthTotal ds m2), (m, monthTotal ds m)]) := by
  obtain ⟨r0, t0, rfl⟩ : ∃ r0 t0, ds = r0 :: t0 := by
    cases ds with
    | nil => exact absurd rfl h
    | cons a b => exact ⟨a, b, rfl⟩
  set ds := r0 :: t0 with hds
  have hperm : List.Perm (List.insertionSort monthGe (distinctMonths ds)) (distinctMonths ds) :=
    List.perm_insertionSort monthGe (distinctMonths ds)
  have hsor : List.Sorted monthGe (List.insertionSort monthGe (distinctMonths ds)) :=
    List.sorted_insertionSort monthGe (distinctMonths ds)
  have hnd : (List.insertionSort monthGe (distinctMonths ds)).Nodup :=
    hperm.nodup_iff.mpr (nodup_dedupFirstSeen _)
  have hmem0 : r0.invoice_month ∈ distinctMonths ds :=
    (mem_distinctMonths ds _).mpr ⟨r0, by simp [hds], rfl⟩
  cases hSD : List.insertionSort monthGe (distinctMonths ds) with
  | nil =>
    exact absurd (hperm.mem_iff.mpr hmem0) (by rw [hSD]; simp)
  | cons m tl =>
    rw [hSD] at hperm hsor hnd
    have hmmem : m ∈ distinctMonths ds := hperm.mem_iff.mp (by simp)
    have hmax : ∀ x ∈ distinctMonths ds, x ≤ m := by
      intro x hx
      rcases List.mem_cons.mp (hperm.mem_iff.mpr hx) with h1 | h1
      · exact le_of_eq h1
      · exact (List.sorted_cons.mp hsor).1 x h1
    have hlatest : IsLatestMonth ds m := by
      refine ⟨(mem_distinctMonths ds m).mp hmmem, ?_⟩
      intro r hr
      exact hmax r.invoice_month ((mem_distinctMonths ds _).mpr ⟨r, hr, rfl⟩)
    cases tl with
    | nil =>
      left
      refine ⟨m, hlatest, ?_, ?_⟩
      · intro r hr
        have : r.invoice_month ∈ distinctMonths ds :=
          (mem_distinctMonths ds _).mpr ⟨r, hr, rfl⟩
        have hsing : distinctMonths ds = [m] :=
          List.perm_singleton.mp hperm.symm
        simpa [hsing] using this
      · rw [sortPairsByMonth, get_last_n_months_spend]
        simp only [hds, hSD]
        simp [List.insertionSort, List.orderedInsert]
    | cons m2 tl2 =>
      right
      have hm2mem : m2 ∈ distinctMonths ds := hperm.mem_iff.mp (by simp)
      have hm2le : m2 ≤ m := (List.sorted_cons.mp hsor).1 m2 (by simp)
      have hm2ne : m2 ≠ m := by
        intro hcon
        have := (List.nodup_cons.mp hnd).1
        simp [hcon] at this
      have hm2lt : m2 < m := lt_of_le_of_ne hm2le hm2ne
      have hsecond : IsSecondLatestMonth ds m m2 := by
        refine ⟨(mem_distinctMonths ds m2).mp hm2mem, hm2lt, ?_⟩
        intro r hr
        have hrm : r.invoice_month ∈ distinctMonths ds :=
          (mem_distinctMonths ds _).mpr ⟨r, hr, rfl⟩
        rcases List.mem_cons.mp (hperm.mem_iff.mpr hrm) with h1 | h1
        · exact Or.inl h1
        · rcases List.mem_cons.mp h1 with h2 | h2
          · exact Or.inr (le_of_eq h2)
          · exact Or.inr ((List.sorted_cons.mp (List.sorted_cons.mp hsor).2).1 _ h2)
      refine ⟨m, m2, hlatest, hsecond, ?_⟩
      rw [sortPairsByMonth, get_last_n_months_spend]
      simp only [hds, hSD]
      have e1 : List.insertionSort monthLe [m, m2] = [m2, m] := by
        simp only [List.insertionSort, List.orderedInsert]
        rw [if_neg (by simp only [monthLe]; omega)]
      have e2 : List.insertionSort pairLe
          [(m2, monthTotal ds m2), (m, monthTotal ds m)] =
          [(m2, monthTotal ds m2), (m, monthTotal ds m)] := by
        simp only [List.insertionSort, List.orderedInsert]
        rw [if_pos (by simp only [pairLe]; omega)]
      simp only [List.take, List.isEmpty_cons, if_neg]
      rw [e1]
      simp only [List.map_cons, List.map_nil, hds] at e2 ⊢
      exact e2

/-- Evaluation of the endpoint body when the sorted spend history is a
single pair: previous month spend falls back to the current one. -/
theorem kpi_body_one (ds : List BillingRecord) (m : Nat)
    (hSH : sortPairsByMonth (get_last_n_months_spend ds 2) = [(m, monthTotal ds m)]) :
    get_kpi_metrics_body ds = .ok
      { status := "success"
        total_monthly_spend := round2 (monthTotal ds m)
        savings_opportunities :=
          round2 ((sqlSum (ds.map (fun r => r.cost * r.optimization_score))).getD 0)
        waste_metrics :=
          round2 ((sqlSum ((ds.filter (fun r =>
            r.optimization_score < 3 / 10 && r.invoice_month = m)).map
              (fun r => r.cost))).getD 0)
        monthly_trend_percentage :=
          round2 (if monthTotal ds m = 0 then 0
            else ((monthTotal ds m - monthTotal ds m) / monthTotal ds m) * 100)
        top_5_cost_drivers :=
          (top5CostDrivers ds m).map (fun p => (p.1, round2 p.2)) } := by
  rw [get_kpi_metrics_body, hSH]
  rfl

/-- Evaluation of the endpoint body when the sorted spend history has two
pairs: the earlier month supplies the previous spend. -/
theorem kpi_body_two (ds : List BillingRecord) (m m2 : Nat)
    (hSH : sortPairsByMonth (get_last_n_months_spend ds 2) =
      [(m2, monthTotal ds m2), (m, monthTotal ds m)]) :
    get_kpi_metrics_body ds = .ok
      { status := "success"
        total_monthly_spend := round2 (monthTotal ds m)
        savings_opportunities :=
          round2 ((sqlSum (ds.map (fun r => r.cost * r.optimization_score))).getD 0)
        waste_metrics :=
          round2 ((sqlSum ((ds.filter (fun r =>
            r.optimization_score < 3 / 10 && r.invoice_month = m)).map
              (fun r => r.cost))).getD 0)
        monthly_trend_percentage :=
          round2 (if monthTotal ds m2 = 0 then 0
            else ((monthTotal ds m - monthTotal ds m2) / monthTotal ds m2) * 100)
        top_5_cost_drivers :=
          (top5CostDrivers ds m).map (fun p => (p.1, round2 p.2)) } := by
  rw [get_kpi_metrics_body, hSH]
  rfl

/-- The endpoint succeeds exactly when its body does. -/
theorem get_kpi_metrics_ok (ds : List BillingRecord) (resp : KPIResponse)
    (h : get_kpi_metrics_body ds = .ok resp) :
    get_kpi_metrics ds = .ok resp := by
  rw [get_kpi_metrics, h]

/-- A concrete pipeline used to instantiate theorems about the RAG engine. -/
def demoChain : RagChain := fun _ => .ok { answer := "demo", context := [] }

/-- A concrete pipeline whose retrieval returns repeated source labels and a
chunk with no label. -/
def demoChainDup : RagChain := fun _ => .ok
  { answer := "grounded answer"
    context := [⟨"a", some "finops_tips.md"⟩, ⟨"b", some "finops_tips.md"⟩, ⟨"c", none⟩] }

/-- C1: the claim says a KPI request against an empty billing table returns
HTTP 404.  The route does raise the 404 (first conjunct models the try-block
up to that raise), but the blanket except clause catches the HTTPException
and replaces it, so the endpoint actually answers 500. -/
theorem kpi_empty_table_returns_500 :
    get_kpi_metrics_body [] = .error ⟨404, "No billing data found."⟩ ∧
    get_kpi_metrics [] = .error ⟨500, "Internal server error while fetching KPIs."⟩ := by
  exact ⟨rfl, rfl⟩

/-- C2 counterexample: after a failed initialization attempt, a later call
whose attempt succeeds returns no error at all, so the FAILED state is not
terminal and the cached error is not what later calls return. -/
theorem rag_failed_state_retries :
    ((get_rag_chain true (.failure "boom") ⟨none, none⟩).2.RAG_ERROR =
      some (initFailMsg "boom")) ∧
    (get_rag_chain true (.success demoChain)
      (get_rag_chain true (.failure "boom") ⟨none, none⟩).2).1.2 = none := by
  exact ⟨rfl, rfl⟩

/-- C2 amended: after a failed attempt the chain cache is still empty, so a
later call re-runs initialization: a successful attempt caches and returns
the new chain with no error while leaving the old cached error in place,
and a failing attempt returns a freshly computed error message. -/
theorem rag_failed_not_terminal (s : RagState) (err : String)
    (h1 : s.RAG_CHAIN = none) (h2 : s.RAG_ERROR = some err) :
    (∀ c, get_rag_chain true (.success c) s =
      ((some c, none), { RAG_CHAIN := some c, RAG_ERROR := some err })) ∧
    (∀ e, (get_rag_chain true (.failure e) s).1.2 = some (initFailMsg e)) := by
  obtain ⟨oc, oe⟩ := s
  simp only at h1 h2
  subst h1
  subst h2
  exact ⟨fun c => rfl, fun e => rfl⟩

/-- Witness for the amended C2 at a concrete failed state. -/
theorem rag_failed_not_terminal_witness :
    get_rag_chain true (.success demoChain) ⟨none, some "E"⟩ =
      ((some demoChain, none),
        { RAG_CHAIN := some demoChain, RAG_ERROR := some "E" }) :=
  (rag_failed_not_terminal ⟨none, some "E"⟩ "E" rfl rfl).1 demoChain

/-- C9: once a failed attempt has been followed by a successful one, the
stale error is returned next to the cached pipeline on every later call,
the state no longer changes, and the chat endpoint keeps answering the
degraded status-error response. -/
theorem rag_stale_error_after_recovery (e : String) (c : RagChain)
    (cfg : Bool) (att : InitOutcome) (q : String) :
    (get_rag_chain cfg att
        (get_rag_chain true (.success c)
          (get_rag_chain true (.failure e) ⟨none, none⟩).2).2).1 =
      (some c, some (initFailMsg e)) ∧
    (get_rag_chain cfg att
        (get_rag_chain true (.success c)
          (get_rag_chain true (.failure e) ⟨none, none⟩).2).2).2 =
      (get_rag_chain true (.success c)
        (get_rag_chain true (.failure e) ⟨none, none⟩).2).2 ∧
    (ask_ai_copilot cfg att q
        (get_rag_chain true (.success c)
          (get_rag_chain true (.failure e) ⟨none, none⟩).2).2).1 =
      .ok { answer := offlineAnswer (initFailMsg e), sources := "N/A"
            status := "error" } := by
  exact ⟨rfl, rfl, rfl⟩

/-- C7: while get_rag_chain reports an error the chat endpoint answers an
ordinary 200 response with status error and an explanatory answer and never
raises; an HTTPException can only be the 500 produced when the query call
of a ready chain itself throws; and the state after the request is exactly
the state get_rag_chain produced, unchanged by any query failure. -/
theorem ask_error_handling (cfgOk : Bool) (att : InitOutcome) (q : String)
    (s : RagState) :
    (∀ err, (get_rag_chain cfgOk att s).1.2 = some err →
      (ask_ai_copilot cfgOk att q s).1 =
        .ok { answer := offlineAnswer err, sources := "N/A", status := "error" }) ∧
    (∀ he, (ask_ai_copilot cfgOk att q s).1 = .error he →
      he.status_code = 500 ∧ ∃ chain msg,
        (get_rag_chain cfgOk att s).1 = (some chain, none) ∧
          chain q = .error msg) ∧
    (ask_ai_copilot cfgOk att q s).2 = (get_rag_chain cfgOk att s).2 := by
  obtain ⟨oc, oe⟩ := s
  cases oc with
  | none =>
    cases cfgOk with
    | false =>
      refine ⟨?_, ?_, rfl⟩
      · intro err herr
        obtain rfl : err = configError := by
          simpa [get_rag_chain] using herr.symm
        rfl
      · intro he hhe
        exact absurd hhe (by simp [ask_ai_copilot, ask_logic, get_rag_chain])
    | true =>
      cases att with
      | success c =>
        refine ⟨?_, ?_, rfl⟩
        · intro err herr
          simp [get_rag_chain] at herr
        · intro he hhe
          cases hq : c q with
          | ok r =>
            exact absurd hhe
              (by simp [ask_ai_copilot, ask_logic, get_rag_chain, hq])
          | error msg =>
            have hval : Except.error (ε := HTTPError) (α := ChatResponse)
                ⟨500, ragChainError msg⟩ = .error he := by
              rw [← hhe]
              simp [ask_ai_copilot, ask_logic, get_rag_chain, hq]
            have : he = ⟨500, ragChainError msg⟩ :=
              (Except.error.inj hval).symm
            subst this
            exact ⟨rfl, c, msg, rfl, hq⟩
      | failure e =>
        refine ⟨?_, ?_, rfl⟩
        · intro err herr
          obtain rfl : err = initFailMsg e := by
            simpa [get_rag_chain] using herr.symm
          rfl
        · intro he hhe
          exact absurd hhe (by simp [ask_ai_copilot, ask_logic, get_rag_chain])
  | some c =>
    cases oe with
    | some err0 =>
      refine ⟨?_, ?_, rfl⟩
      · intro err herr
        obtain rfl : err = err0 := by
          simpa [get_rag_chain] using herr.symm
        rfl
      · intro he hhe
        exact absurd hhe (by simp [ask_ai_copilot, ask_logic, get_rag_chain])
    | none =>
      refine ⟨?_, ?_, rfl⟩
      · intro err herr
        simp [get_rag_chain] at herr
      · intro he hhe
        cases hq : c q with
        | ok r =>
          exact absurd hhe
            (by simp [ask_ai_copilot, ask_logic, get_rag_chain, hq])
        | error msg =>
          have hval : Except.error (ε := HTTPError) (α := ChatResponse)
              ⟨500, ragChainError msg⟩ = .error he := by
            rw [← hhe]
            simp [ask_ai_copilot, ask_logic, get_rag_chain, hq]
          have : he = ⟨500, ragChainError msg⟩ :=
            (Except.error.inj hval).symm
          subst this
          exact ⟨rfl, c, msg, rfl, hq⟩

/-- Witness for C7: with a bad configuration and no cached chain, the chat
endpoint answers 200 with status error. -/
theorem ask_error_handling_witness :
    (ask_ai_copilot false (.failure "x") "q" ⟨none, none⟩).1 =
      .ok { answer := offlineAnswer configError, sources := "N/A"
            status := "error" } :=
  (ask_error_handling false (.failure "x") "q" ⟨none, none⟩).1 configError rfl

/-- C8: a successful query of a ready engine returns the source labels of
the retrieved chunks in retrieval order, substituting Unknown Source for a
chunk without a label, without deduplication. -/
theorem ask_sources_from_context (cfgOk : Bool) (att : InitOutcome) (q : String)
    (s : RagState) (chain : RagChain) (resp : QueryResult)
    (hready : (get_rag_chain cfgOk att s).1 = (some chain, none))
    (hq : chain q = .ok resp) :
    (ask_ai_copilot cfgOk att q s).1 = .ok
      { answer := resp.answer
        sources := String.intercalate ", " (resp.context.map (fun d =>
          match d.source with
          | some lbl => lbl
          | none => "Unknown Source"))
        status := "success" } := by
  have h1 : (ask_ai_copilot cfgOk att q s).1 =
      ask_logic (get_rag_chain cfgOk att s).1.1 (get_rag_chain cfgOk att s).1.2 q := rfl
  rw [h1, hready]
  simp only [ask_logic, hq, formatSources]
  have hfun : resp.context.map (fun d => d.source.getD "Unknown Source") =
      resp.context.map (fun d =>
        match d.source with
        | some lbl => lbl
        | none => "Unknown Source") := by
    refine List.map_congr_left ?_
    intro d _
    cases d.source <;> rfl
  rw [hfun]

/-- Witness for C8: duplicate labels survive and a missing label becomes
Unknown Source. -/
theorem ask_sources_witness :
    (ask_ai_copilot true (.failure "down") "q" ⟨some demoChainDup, none⟩).1 =
      .ok { answer := "grounded answer"
            sources := "finops_tips.md, finops_tips.md, Unknown Source"
            status := "success" } := by
  have h := ask_sources_from_context true (.failure "down") "q"
    ⟨some demoChainDup, none⟩ demoChainDup
    { answer := "grounded answer"
      context := [⟨"a", some "finops_tips.md"⟩, ⟨"b", some "finops_tips.md"⟩,
        ⟨"c", none⟩] } rfl rfl
  rw [h]
  rfl

theorem floor_le_roundHalfEven (q : ℚ) : ⌊q⌋ ≤ roundHalfEven q := by
  unfold roundHalfEven
  split_ifs <;> omega

theorem roundHalfEven_le_floor_add_one (q : ℚ) : roundHalfEven q ≤ ⌊q⌋ + 1 := by
  unfold roundHalfEven
  split_ifs <;> omega

theorem roundHalfEven_mono {q r : ℚ} (h : q ≤ r) :
    roundHalfEven q ≤ roundHalfEven r := by
  by_cases hf : (⌊q⌋ : ℤ) < ⌊r⌋
  · calc roundHalfEven q ≤ ⌊q⌋ + 1 := roundHalfEven_le_floor_add_one q
      _ ≤ ⌊r⌋ := by omega
      _ ≤ roundHalfEven r := floor_le_roundHalfEven r
  · have hfe : (⌊q⌋ : ℤ) = ⌊r⌋ := le_antisymm (Int.floor_le_floor h) (not_lt.mp hf)
    have hfrac : q - (⌊r⌋ : ℚ) ≤ r - (⌊r⌋ : ℚ) := sub_le_sub_right h _
    unfold roundHalfEven
    rw [hfe]
    split_ifs <;> first | omega | (exfalso; linarith)

theorem round2_zero : round2 0 = 0 := by
  have h1 : roundHalfEven 0 = 0 := by
    unfold roundHalfEven
    norm_num
  rw [round2]
  norm_num [h1]

theorem round2_mono {q r : ℚ} (h : q ≤ r) : round2 q ≤ round2 r := by
  rw [round2, round2]
  have h1 : roundHalfEven (q * 100) ≤ roundHalfEven (r * 100) :=
    roundHalfEven_mono (by linarith)
  have h2 : ((roundHalfEven (q * 100) : ℤ) : ℚ) ≤ ((roundHalfEven (r * 100) : ℤ) : ℚ) := by
    exact_mod_cast h1
  linarith

theorem IsLatestMonth_unique (ds : List BillingRecord) (m m' : Nat)
    (h1 : IsLatestMonth ds m) (h2 : IsLatestMonth ds m') : m = m' := by
  obtain ⟨⟨r1, hr1, hr1m⟩, hle1⟩ := h1
  obtain ⟨⟨r2, hr2, hr2m⟩, hle2⟩ := h2
  have a1 : m ≤ m' := hr1m ▸ hle2 r1 hr1
  have a2 : m' ≤ m := hr2m ▸ hle1 r2 hr2
  omega

/-- The waste query filters by score then month; the claims phrase it as
month-and-score.  The two filters agree. -/
theorem waste_filter_swap (ds : List BillingRecord) (m : Nat) :
    ds.filter (fun r => r.optimization_score < 3 / 10 && r.invoice_month = m) =
      ds.filter (fun r =>
        decide (r.invoice_month = m ∧ r.optimization_score < 3 / 10)) := by
  refine List.filter_congr ?_
  intro r _
  by_cases h1 : r.invoice_month = m <;>
    by_cases h2 : r.optimization_score < 3 / 10 <;> simp [h1, h2]

/-- Filtering the latest-month rows by service equals one filter over the
whole table by month and service. -/
theorem filter_month_service (ds : List BillingRecord) (m : Nat) (s : String) :
    (ds.filter (fun r => r.invoice_month = m)).filter (fun r => r.service = s) =
      ds.filter (fun r => decide (r.invoice_month = m ∧ r.service = s)) := by
  rw [List.filter_filter]
  refine List.filter_congr ?_
  intro r _
  by_cases h1 : r.invoice_month = m <;>
    by_cases h2 : r.service = s <;> simp [h1, h2]

/-- C3: for every non-empty billing dataset, the savings-opportunities
metric sums cost times optimization score over ALL records regardless of
month, while the waste metric sums cost over only the latest-month records
with score strictly below 0.3. -/
theorem kpi_savings_waste_asymmetry (ds : List BillingRecord) (h : ds ≠ []) :
    ∃ resp m, get_kpi_metrics ds = .ok resp ∧ IsLatestMonth ds m ∧
      resp.savings_opportunities =
        round2 ((ds.map (fun r => r.cost * r.optimization_score)).sum) ∧
      resp.waste_metrics =
        round2 (((ds.filter (fun r =>
          decide (r.invoice_month = m ∧ r.optimization_score < 3 / 10))).map
            (fun r => r.cost)).sum) := by
  rcases spend_history_cases ds h with ⟨m, hlat, hall, hSH⟩ | ⟨m, m2, hlat, hsec, hSH⟩
  · refine ⟨_, m, get_kpi_metrics_ok ds _ (kpi_body_one ds m hSH), hlat, ?_, ?_⟩
    · dsimp only
      rw [sqlSum_getD]
    · dsimp only
      rw [sqlSum_getD, waste_filter_swap]
  · refine ⟨_, m, get_kpi_metrics_ok ds _ (kpi_body_two ds m m2 hSH), hlat, ?_, ?_⟩
    · dsimp only
      rw [sqlSum_getD]
    · dsimp only
      rw [sqlSum_getD, waste_filter_swap]

/-- C4: the monthly trend percentage is 0 whenever the previous month total
is 0 regardless of the current total, and otherwise equals
(current - previous) / previous times 100, where previous is the
second-latest distinct month total, or the current total itself when only
one distinct invoice month exists. -/
theorem kpi_trend_formula (ds : List BillingRecord) (h : ds ≠ []) :
    ∃ resp m cur prev, get_kpi_metrics ds = .ok resp ∧ IsLatestMonth ds m ∧
      cur = monthTotal ds m ∧
      (((∀ r ∈ ds, r.invoice_month = m) ∧ prev = cur) ∨
        (∃ m2, IsSecondLatestMonth ds m m2 ∧ prev = monthTotal ds m2)) ∧
      resp.monthly_trend_percentage =
        round2 (if prev = 0 then 0 else ((cur - prev) / prev) * 100) := by
  rcases spend_history_cases ds h with ⟨m, hlat, hall, hSH⟩ | ⟨m, m2, hlat, hsec, hSH⟩
  · exact ⟨_, m, monthTotal ds m, monthTotal ds m,
      get_kpi_metrics_ok ds _ (kpi_body_one ds m hSH), hlat, rfl,
      Or.inl ⟨hall, rfl⟩, rfl⟩
  · exact ⟨_, m, monthTotal ds m, monthTotal ds m2,
      get_kpi_metrics_ok ds _ (kpi_body_two ds m m2 hSH), hlat, rfl,
      Or.inr ⟨m2, hsec, rfl⟩, rfl⟩

/-- C10: when no record of the latest month has score below 0.3, the waste
aggregate is SQL NULL and the endpoint returns 0 for it instead of failing
or returning null. -/
theorem kpi_waste_zero_when_no_match (ds : List BillingRecord) (m : Nat)
    (h : ds ≠ []) (hlat : IsLatestMonth ds m)
    (hno : ∀ r ∈ ds, r.invoice_month = m → ¬ r.optimization_score < 3 / 10) :
    ∃ resp, get_kpi_metrics ds = .ok resp ∧ resp.waste_metrics = 0 ∧
      sqlSum ((ds.filter (fun r =>
        r.optimization_score < 3 / 10 && r.invoice_month = m)).map
          (fun r => r.cost)) = none := by
  have hfil : ds.filter (fun r =>
      r.optimization_score < 3 / 10 && r.invoice_month = m) = [] := by
    rw [List.filter_eq_nil_iff]
    intro r hr
    by_cases h1 : r.invoice_month = m
    · by_cases h2 : r.optimization_score < 3 / 10
      · exact absurd h2 (hno r hr h1)
      · simp [h1, h2]
    · simp [h1]
  have hwaste : round2 ((sqlSum ((ds.filter (fun r =>
      r.optimization_score < 3 / 10 && r.invoice_month = m)).map
        (fun r => r.cost))).getD 0) = 0 := by
    rw [hfil]
    simpa [sqlSum] using round2_zero
  rcases spend_history_cases ds h with ⟨m', hlat', hall, hSH⟩ | ⟨m', m2, hlat', hsec, hSH⟩
  · obtain rfl : m = m' := IsLatestMonth_unique ds m m' hlat hlat'
    refine ⟨_, get_kpi_metrics_ok ds _ (kpi_body_one ds m hSH), ?_, ?_⟩
    · dsimp only
      exact hwaste
    · rw [hfil]; rfl
  · obtain rfl : m = m' := IsLatestMonth_unique ds m m' hlat hlat'
    refine ⟨_, get_kpi_metrics_ok ds _ (kpi_body_two ds m m2 hSH), ?_, ?_⟩
    · dsimp only
      exact hwaste
    · rw [hfil]; rfl

/-- Concrete billing rows used to instantiate the KPI theorems. -/
def recA : BillingRecord :=
  { invoice_month := 1, account_id := "ACC-100", subscription := "Sub-Prod"
    service := "EC2", resource_group := "RG-1", resource_id := "r1"
    region := "us-east-1", usage_qty := 1, unit_cost := 10, cost := 10
    optimization_score := 1 }

def recB : BillingRecord :=
  { invoice_month := 2, account_id := "ACC-101", subscription := "Sub-Dev"
    service := "S3", resource_group := "RG-2", resource_id := "r2"
    region := "us-west-2", usage_qty := 2, unit_cost := 10, cost := 20
    optimization_score := 0 }

def recC : BillingRecord :=
  { invoice_month := 2, account_id := "ACC-102", subscription := "Sub-Test"
    service := "EC2", resource_group := "RG-3", resource_id := "r3"
    region := "eu-central-1", usage_qty := 1, unit_cost := 5, cost := 5
    optimization_score := 1 }

/-- Witness for C3 at a concrete two-month dataset. -/
theorem kpi_savings_waste_asymmetry_witness :
    ∃ resp m, get_kpi_metrics [recA, recB, recC] = .ok resp ∧
      IsLatestMonth [recA, recB, recC] m ∧
      resp.savings_opportunities =
        round2 (([recA, recB, recC].map
          (fun r => r.cost * r.optimization_score)).sum) ∧
      resp.waste_metrics =
        round2 ((([recA, recB, recC].filter (fun r =>
          decide (r.invoice_month = m ∧ r.optimization_score < 3 / 10))).map
            (fun r => r.cost)).sum) :=
  kpi_savings_waste_asymmetry [recA, recB, recC] (by simp)

/-- Witness for C4 at a concrete two-month dataset. -/
theorem kpi_trend_formula_witness :
    ∃ resp m cur prev, get_kpi_metrics [recA, recB, recC] = .ok resp ∧
      IsLatestMonth [recA, recB, recC] m ∧
      cur = monthTotal [recA, recB, recC] m ∧
      (((∀ r ∈ [recA, recB, recC], r.invoice_month = m) ∧ prev = cur) ∨
        (∃ m2, IsSecondLatestMonth [recA, recB, recC] m m2 ∧
          prev = monthTotal [recA, recB, recC] m2)) ∧
      resp.monthly_trend_percentage =
        round2 (if prev = 0 then 0 else ((cur - prev) / prev) * 100) :=
  kpi_trend_formula [recA, recB, recC] (by simp)

/-- Witness for C10 at a concrete dataset whose latest month has no row
below the waste threshold. -/
theorem kpi_waste_zero_witness :
    ∃ resp, get_kpi_metrics [recA, recC] = .ok resp ∧ resp.waste_metrics = 0 ∧
      sqlSum (([recA, recC].filter (fun r =>
        r.optimization_score < 3 / 10 && r.invoice_month = 2)).map
          (fun r => r.cost)) = none := by
  have hlat : IsLatestMonth [recA, recC] 2 := by
    refine ⟨⟨recC, by simp, rfl⟩, ?_⟩
    intro r hr
    rcases List.mem_cons.mp hr with rfl | hr2
    · norm_num [recA]
    · rcases List.mem_cons.mp hr2 with rfl | hr3
      · norm_num [recC]
      · simp at hr3
  have hno : ∀ r ∈ [recA, recC], r.invoice_month = 2 →
      ¬ r.optimization_score < 3 / 10 := by
    intro r hr hm
    rcases List.mem_cons.mp hr with rfl | hr2
    · norm_num [recA] at hm
    · rcases List.mem_cons.mp hr2 with rfl | hr3
      · norm_num [recC]
      · simp at hr3
  exact kpi_waste_zero_when_no_match [recA, recC] 2 (by simp) hlat hno

theorem top5_length_le (ds : List BillingRecord) (m : Nat) :
    (top5CostDrivers ds m).length ≤ 5 := by
  have h : ∀ l : List (String × ℚ), ((List.insertionSort costGe l).take 5).length ≤ 5 :=
    fun l => List.length_take_le 5 _
  exact h _

theorem top5_pairwise (ds : List BillingRecord) (m : Nat) :
    (top5CostDrivers ds m).Pairwise costGe := by
  have h : ∀ l : List (String × ℚ),
      ((List.insertionSort costGe l).take 5).Pairwise costGe :=
    fun l => List.Pairwise.sublist (List.take_sublist 5 _)
      (List.sorted_insertionSort costGe l)
  exact h _

theorem top5_mem_spec (ds : List BillingRecord) (m : Nat) (p : String × ℚ)
    (hp : p ∈ top5CostDrivers ds m) :
    (∃ r ∈ ds, r.invoice_month = m ∧ r.service = p.1) ∧
    p.2 = ((ds.filter (fun r =>
      decide (r.invoice_month = m ∧ r.service = p.1))).map (fun r => r.cost)).sum := by
  have hp2 : p ∈ List.insertionSort costGe
      ((dedupFirstSeen ((ds.filter (fun r => r.invoice_month = m)).map
        (fun r => r.service))).map (fun s =>
          (s, (((ds.filter (fun r => r.invoice_month = m)).filter
            (fun r => r.service = s)).map (fun r => r.cost)).sum))) :=
    List.mem_of_mem_take hp
  have h2 := (List.perm_insertionSort costGe _).mem_iff.mp hp2
  obtain ⟨s, hs, rfl⟩ := List.mem_map.mp h2
  have hs2 : s ∈ (ds.filter (fun r => r.invoice_month = m)).map (fun r => r.service) :=
    (mem_dedupFirstSeen _ s).mp hs
  obtain ⟨r, hr, rfl⟩ := List.mem_map.mp hs2
  have hrlat := List.mem_filter.mp hr
  refine ⟨⟨r, hrlat.1, by simpa using hrlat.2, rfl⟩, ?_⟩
  dsimp only
  rw [filter_month_service]

/-- Properties of the rounded driver list put into the response. -/
theorem top5_mapped_props (ds : List BillingRecord) (m : Nat) :
    ((top5CostDrivers ds m).map (fun p => (p.1, round2 p.2))).length ≤ 5 ∧
    ((top5CostDrivers ds m).map (fun p => (p.1, round2 p.2))).Pairwise
      (fun a b => b.2 ≤ a.2) ∧
    ∀ p ∈ (top5CostDrivers ds m).map (fun p => (p.1, round2 p.2)),
      (∃ r ∈ ds, r.invoice_month = m ∧ r.service = p.1) ∧
      p.2 = round2 (((ds.filter (fun r =>
        decide (r.invoice_month = m ∧ r.service = p.1))).map (fun r => r.cost)).sum) := by
  refine ⟨?_, ?_, ?_⟩
  · simpa using top5_length_le ds m
  · refine List.Pairwise.map _ ?_ (top5_pairwise ds m)
    intro a b hab
    exact round2_mono hab
  · intro p hp
    obtain ⟨q, hq, rfl⟩ := List.mem_map.mp hp
    obtain ⟨hex, hval⟩ := top5_mem_spec ds m q hq
    refine ⟨hex, ?_⟩
    dsimp only
    rw [hval]

/-- C5: for every non-empty billing dataset the top-5 cost drivers list has
length at most 5, is sorted by descending summed cost, and contains only
services of the latest invoice month, each paired with its summed cost. -/
theorem kpi_top5_drivers (ds : List BillingRecord) (h : ds ≠ []) :
    ∃ resp m, get_kpi_metrics ds = .ok resp ∧ IsLatestMonth ds m ∧
      resp.top_5_cost_drivers.length ≤ 5 ∧
      resp.top_5_cost_drivers.Pairwise (fun a b => b.2 ≤ a.2) ∧
      ∀ p ∈ resp.top_5_cost_drivers,
        (∃ r ∈ ds, r.invoice_month = m ∧ r.service = p.1) ∧
        p.2 = round2 (((ds.filter (fun r =>
          decide (r.invoice_month = m ∧ r.service = p.1))).map
            (fun r => r.cost)).sum) := by
  rcases spend_history_cases ds h with ⟨m, hlat, hall, hSH⟩ | ⟨m, m2, hlat, hsec, hSH⟩
  · obtain ⟨hlen, hpw, hmem⟩ := top5_mapped_props ds m
    exact ⟨_, m, get_kpi_metrics_ok ds _ (kpi_body_one ds m hSH), hlat,
      hlen, hpw, hmem⟩
  · obtain ⟨hlen, hpw, hmem⟩ := top5_mapped_props ds m
    exact ⟨_, m, get_kpi_metrics_ok ds _ (kpi_body_two ds m m2 hSH), hlat,
      hlen, hpw, hmem⟩

/-- Witness for C5 at a concrete two-month dataset. -/
theorem kpi_top5_drivers_witness :
    ∃ resp m, get_kpi_metrics [recA, recB, recC] = .ok resp ∧
      IsLatestMonth [recA, recB, recC] m ∧
      resp.top_5_cost_drivers.length ≤ 5 ∧
      resp.top_5_cost_drivers.Pairwise (fun a b => b.2 ≤ a.2) ∧
      ∀ p ∈ resp.top_5_cost_drivers,
        (∃ r ∈ [recA, recB, recC], r.invoice_month = m ∧ r.service = p.1) ∧
        p.2 = round2 ((([recA, recB, recC].filter (fun r =>
          decide (r.invoice_month = m ∧ r.service = p.1))).map
            (fun r => r.cost)).sum) :=
  kpi_top5_drivers [recA, recB, recC] (by simp)

theorem clipCost_eq_self (r : RawRow) (h : ¬ r.cost.getD 0 < 0) : clipCost r = r := by
  obtain ⟨im, aid, sub, sv, rg, rid, reg, uq, uc, c, ow, ev, tj, os⟩ := r
  cases c with
  | none => rfl
  | some c0 =>
    have h0 : (0 : ℚ) ≤ c0 := not_lt.mp (by simpa using h)
    simp [clipCost, max_eq_left h0]

/-- C6: perform_quality_checks drops exactly the rows with a null resource
id or cost and clips the cost of the remaining rows at 0, so every output
row has a present resource id and a non-negative cost. -/
theorem quality_checks_spec (df : List RawRow) :
    perform_quality_checks df =
      (df.filter (fun r => r.resource_id.isSome && r.cost.isSome)).map clipCost ∧
    ∀ r ∈ perform_quality_checks df,
      r.resource_id.isSome = true ∧ ∃ c, r.cost = some c ∧ 0 ≤ c := by
  have h1 : perform_quality_checks df =
      (df.filter (fun r => r.resource_id.isSome && r.cost.isSome)).map clipCost := by
    by_cases hneg : (df.filter (fun r => r.resource_id.isSome && r.cost.isSome)).any
        (fun r => r.cost.getD 0 < 0)
    · simp only [perform_quality_checks, if_pos hneg]
    · simp only [perform_quality_checks, if_neg hneg]
      have hall : ∀ r ∈ df.filter (fun r => r.resource_id.isSome && r.cost.isSome),
          clipCost r = r := by
        intro r hr
        refine clipCost_eq_self r (fun hlt => hneg ?_)
        exact List.any_eq_true.mpr ⟨r, hr, by simpa using hlt⟩
      exact ((List.map_congr_left hall).trans (List.map_id _)).symm
  refine ⟨h1, ?_⟩
  intro r hr
  rw [h1] at hr
  obtain ⟨r0, hr0, rfl⟩ := List.mem_map.mp hr
  have hf := List.mem_filter.mp hr0
  have hids := Bool.and_eq_true_iff.mp hf.2
  obtain ⟨c0, hc0⟩ := Option.isSome_iff_exists.mp hids.2
  refine ⟨hids.1, max c0 0, ?_, le_max_right c0 0⟩
  simp [clipCost, hc0]

/-- Concrete raw rows matching the example of the spec: one valid row, one
with a null resource id and a negative cost. -/
def rowA : RawRow :=
  { invoice_month := 202501, account_id := "acc-1", subscription := "sub-1"
    service := "EC2", resource_group := "rg-1", resource_id := some "res-1"
    region := "us-east-1", usage_qty := 100, unit_cost := 1, cost := some 100
    owner := some "alice", env := "prod", tags_json := "\x7b\x7d"
    optimization_score := 1 }

def rowB : RawRow :=
  { invoice_month := 202501, account_id := "acc-2", subscription := "sub-2"
    service := "S3", resource_group := "rg-2", resource_id := none
    region := "us-east-2", usage_qty := 50, unit_cost := 1, cost := some (-50)
    owner := some "bob", env := "dev", tags_json := "\x7b\x7d"
    optimization_score := 0 }

/-- Witness for C6: the spec example input yields exactly the valid row with
cost 100. -/
theorem quality_checks_witness :
    perform_quality_checks [rowA, rowB] = [rowA] ∧
      rowA.resource_id.isSome = true ∧ ∃ c, rowA.cost = some c ∧ 0 ≤ c := by
  have h := quality_checks_spec [rowA, rowB]
  refine ⟨?_, h.2 rowA ?_⟩
  · rw [h.1]; decide
  · decide

end FinOps
